import Mathlib

/-!
Shallow embedding of the durable (Redis-backed) queue backend of the
activepieces flow-worker, file
`packages/server/api/src/app/workers/flow-worker/queues/redis/redis-queue.ts`.

The broker (BullMQ), the Redis key-value client, the flow repository and the
lock service are modelled as explicit state threaded through the functions:
the job list of the scheduled queue, an association list for the side
key-value mapping, a list of repeatable-schedule keys, and a list of flow
records.  Fallible calls return `Except`.
-/

namespace ActivepiecesQueue

/-- Modelled from the spec: `ExecutionType` lives in the shared package, which
is not part of the sources under study; §3 names its two members `BEGIN` and
`RESUME`. -/
inductive ExecutionType
  | BEGIN
  | RESUME
deriving DecidableEq

/-- Modelled from the spec: `RepeatableJobType` lives in the job-data module,
which is not part of the sources under study; §3 names its two members
`EXECUTE_TRIGGER` and `DELAYED_FLOW`. -/
inductive RepeatableJobType
  | EXECUTE_TRIGGER
  | DELAYED_FLOW
deriving DecidableEq

/-- Modelled from the spec: `RunEnvironment` lives in the shared package; the
v1→v2 migration uses its member `PRODUCTION`. -/
inductive RunEnvironment
  | PRODUCTION
  | TESTING
deriving DecidableEq

/-- Modelled from the spec: `ScheduleType` lives in the shared package; the
v2→v3 backfill writes `CRON_EXPRESSION`. -/
inductive ScheduleType
  | CRON_EXPRESSION
deriving DecidableEq

/-- Modelled from the spec: the error-code enumeration of the shared package
is not part of the sources under study; these are the members the sources
under study mention. -/
inductive ErrorCode
  | JOB_REMOVAL_FAILURE
  | AUTHORIZATION
  | QUOTA_EXCEEDED
deriving DecidableEq

/-- An `ActivepiecesError`: a code together with the parameters the source
attaches to that code (`JOB_REMOVAL_FAILURE` carries the job id). -/
inductive ApError
  | jobRemovalFailure (jobId : String)
  | authorization
  | quotaExceeded
deriving DecidableEq

def ApError.code : ApError → ErrorCode
  | .jobRemovalFailure _ => .JOB_REMOVAL_FAILURE
  | .authorization => .AUTHORIZATION
  | .quotaExceeded => .QUOTA_EXCEEDED

/-- Modelled from the spec: `LATEST_JOB_DATA_SCHEMA_VERSION` lives in the
job-data module, which is not part of the sources under study; §3 says v4 is
the current/latest version. -/
def LATEST_JOB_DATA_SCHEMA_VERSION : Nat := 4

/-- The embedded flow-version object a v1 payload carries inline; the v1→v2
step reads its `id` and `flowId`. -/
structure FlowVersion where
  id : String
  flowId : String
deriving DecidableEq

/-- A scheduled-job payload.  The source manipulates it as an untyped record
(`JSON.parse(JSON.stringify(job.data))`), so every field that any historical
schema version may carry is optional; an absent field is `none`
(JavaScript `undefined`). -/
structure JobData where
  schemaVersion : Option Nat := none
  flowVersion : Option FlowVersion := none
  flowVersionId : Option String := none
  flowId : Option String := none
  projectId : Option String := none
  environment : Option RunEnvironment := none
  executionType : Option ExecutionType := none
  triggerType : Option String := none
  jobType : Option RepeatableJobType := none
deriving DecidableEq

/-- A broker job on the scheduled queue: its payload, its repeat options
(`job.opts.repeat?.tz`, `job.opts.repeat?.pattern`) and its
`repeatJobKey`. -/
structure RJob where
  data : Option JobData := none
  repeatTz : Option String := none
  repeatPattern : Option String := none
  repeatJobKey : Option String := none
deriving DecidableEq

/-- The schedule record the v2→v3 backfill writes onto a flow. -/
structure Schedule where
  type : ScheduleType
  timezone : String
  cronExpression : String
deriving DecidableEq

/-- A flow record in external persistence, as `flowRepo` exposes it. -/
structure Flow where
  id : String
  publishedVersionId : Option String := none
  schedule : Option Schedule := none
deriving DecidableEq

/-- The state of the external flow repository (`flowRepo()`). -/
structure FlowRepo where
  flows : List Flow
deriving DecidableEq

/-- `flowRepo().findOneBy({ publishedVersionId: v })`. -/
def findOneByPublishedVersionId (repo : FlowRepo) (v : Option String) : Option Flow :=
  match v with
  | none => none
  | some s => repo.flows.find? (fun f => f.publishedVersionId == some s)

/-- `flowRepo().update(flowId, { schedule })`. -/
def updateFlowSchedule (repo : FlowRepo) (flowId : String) (sched : Schedule) : FlowRepo :=
  { flows := repo.flows.map (fun f => if f.id == flowId then { f with schedule := some sched } else f) }

/-- `updateCronExpressionOfRedisToPostgresTable(job)`: reads the repeat
options from the job; when either is absent the job is not actually
repeatable and the call returns `false` without touching persistence;
otherwise it looks the flow up by published version id and, when found,
backfills its schedule and returns `true`. -/
def updateCronExpressionOfRedisToPostgresTable (repo : FlowRepo) (job : RJob) :
    Bool × FlowRepo :=
  match job.repeatTz, job.repeatPattern with
  | some tz, some pat =>
    match findOneByPublishedVersionId repo (job.data.bind (fun d => d.flowVersionId)) with
    | some flow =>
      (true, updateFlowSchedule repo flow.id
        { type := ScheduleType.CRON_EXPRESSION, timezone := tz, cronExpression := pat })
    | none => (false, repo)
  | _, _ => (false, repo)

/-- The v1→v2 rewrite: the replacement record built from the embedded
flow-version object.  Every field not listed in the source literal is
dropped. -/
def migrateV1ToV2 (d : JobData) (flowVersion : FlowVersion) : JobData :=
  { schemaVersion := some 2
    flowVersionId := some flowVersion.id
    flowId := some flowVersion.flowId
    projectId := d.projectId
    environment := some RunEnvironment.PRODUCTION
    executionType := some ExecutionType.BEGIN
    triggerType := d.triggerType
    flowVersion := none
    jobType := none }

/-- The v3→v4 rewrite: version becomes 4, `jobType` is derived from
`executionType`, and `executionType` is cleared. -/
def migrateV3ToV4 (d : JobData) : JobData :=
  { d with
    schemaVersion := some 4
    jobType :=
      if d.executionType = some ExecutionType.BEGIN then
        some RepeatableJobType.EXECUTE_TRIGGER
      else if d.executionType = some ExecutionType.RESUME then
        some RepeatableJobType.DELAYED_FLOW
      else d.jobType
    executionType := none }

/-- The one runtime fault the migration loop itself can raise: the v1→v2
step destructures `flowVersion` out of the payload and dereferences
`flowVersion.id`, which throws when the field is absent. -/
inductive MigrationFault
  | typeError
deriving DecidableEq

/-- The second `if` of the loop body (`modifiedJobData.schemaVersion === 2`):
run the backfill against the job carrying its current data `d1`; on success
the version advances to 3 and the step counter increments, otherwise data
and counter are unchanged. -/
def migrateStep2 (repo : FlowRepo) (job : RJob) (d1 : JobData) (c1 : Nat) :
    JobData × FlowRepo × Nat :=
  if d1.schemaVersion = some 2 then
    let u := updateCronExpressionOfRedisToPostgresTable repo { job with data := some d1 }
    if u.1 then ({ d1 with schemaVersion := some 3 }, u.2, c1 + 1)
    else (d1, u.2, c1)
  else (d1, repo, c1)

/-- The second and third `if`s of the loop body in sequence; the final
`updateData` leaves the job carrying the last rewritten payload. -/
def migrateSteps23 (repo : FlowRepo) (job : RJob) (d1 : JobData) (c1 : Nat) :
    RJob × FlowRepo × Nat :=
  let s2 := migrateStep2 repo job d1 c1
  if s2.1.schemaVersion = some 3 then
    ({ job with data := some (migrateV3ToV4 s2.1) }, s2.2.1, s2.2.2 + 1)
  else ({ job with data := some s2.1 }, s2.2.1, s2.2.2)

/-- The body of the migration loop for a single job: the three sequential
version steps, each followed by `job.updateData`, with the running step
counter (`migratedJobs` increments inside every step); the first `if`
(version undefined or 1) dereferences `flowVersion.id`, a fault when the
field is absent. -/
def migrateOneJob (repo : FlowRepo) (job : RJob) :
    Except MigrationFault (RJob × FlowRepo × Nat) :=
  match job.data with
  | none => .ok (job, repo, 0)
  | some d0 =>
    if d0.schemaVersion = none ∨ d0.schemaVersion = some 1 then
      match d0.flowVersion with
      | none => .error MigrationFault.typeError
      | some fv => .ok (migrateSteps23 repo job (migrateV1ToV2 d0 fv) 1)
    else .ok (migrateSteps23 repo job d0 0)

/-- `jobDataSchemaVersionIsNotLatest`: the filter selecting jobs to migrate. -/
def jobDataSchemaVersionIsNotLatest (job : Option RJob) : Bool :=
  match job with
  | none => false
  | some j =>
    match j.data with
    | none => false
    | some d => d.schemaVersion != some LATEST_JOB_DATA_SCHEMA_VERSION

/-- One iteration of the migration pass over one entry of `getJobs()`:
entries the filter rejects are left untouched. -/
def processScheduledJob (repo : FlowRepo) (oj : Option RJob) :
    Except MigrationFault (Option RJob × FlowRepo × Nat) :=
  if jobDataSchemaVersionIsNotLatest oj then
    match oj with
    | none => .ok (none, repo, 0)
    | some j =>
      match migrateOneJob repo j with
      | .error e => .error e
      | .ok (j', r, c) => .ok (some j', r, c)
  else
    .ok (oj, repo, 0)

/-- The migration loop over the whole scheduled queue, threading the flow
repository and summing the step counter; a fault aborts the loop. -/
def migrateJobsLoop (repo : FlowRepo) :
    List (Option RJob) → Except MigrationFault (List (Option RJob) × FlowRepo × Nat)
  | [] => .ok ([], repo, 0)
  | oj :: rest =>
    match processScheduledJob repo oj with
    | .error e => .error e
    | .ok (oj', repo1, c1) =>
      match migrateJobsLoop repo1 rest with
      | .error e => .error e
      | .ok (out, repo2, c2) => .ok (oj' :: out, repo2, c1 + c2)

/-- Modelled from the spec: the lock service (`helper/lock`, outside the
sources under study) exposes `acquire(key, timeoutMs) → handle`; its only
way to signal failure through that promise-returning signature is a
rejection, modelled as `Except.error`. -/
structure ApLock where
  key : String
deriving DecidableEq

inductive LockError
  | acquisitionFailed
deriving DecidableEq

inductive InitError
  | lockFailed (e : LockError)
  | migrationFault (e : MigrationFault)
deriving DecidableEq

/-- `migrateScheduledJobs()`: acquire the migration lock (a rejection there
happens before the `try` and propagates), then run the loop; the `finally`
only releases the lock, so a loop fault propagates as well. -/
def migrateScheduledJobs (lockResult : Except LockError ApLock) (repo : FlowRepo)
    (jobs : List (Option RJob)) :
    Except InitError (List (Option RJob) × FlowRepo × Nat) :=
  match lockResult with
  | .error e => .error (.lockFailed e)
  | .ok _ =>
    match migrateJobsLoop repo jobs with
    | .error e => .error (.migrationFault e)
    | .ok r => .ok r

/-- `redisQueueManager.init()`: constructs the two queues and awaits
`migrateScheduledJobs()`; its outcome is the outcome of the migration
pass. -/
def redisQueueManagerInit (lockResult : Except LockError ApLock) (repo : FlowRepo)
    (jobs : List (Option RJob)) :
    Except InitError (List (Option RJob) × FlowRepo × Nat) :=
  migrateScheduledJobs lockResult repo jobs

/-- The namespaced side-mapping key: `activepieces:repeatJobKey:id`. -/
def repeatingJobKey (id : String) : String :=
  "activepieces:repeatJobKey:" ++ id

/-- The durable backend state `removeRepeatingJob` touches: the Redis side
key-value mapping, the scheduled queue jobs, and the broker set of
repeatable-schedule keys. -/
structure QueueState where
  kv : List (String × String)
  jobs : List (Option RJob)
  repeatKeys : List String
deriving DecidableEq

/-- `client.get(k)` over the association-list model of the key-value store. -/
def kvGet (kv : List (String × String)) (k : String) : Option String :=
  (kv.find? (fun p => p.1 == k)).map (fun p => p.2)

/-- `client.del(k)`. -/
def kvDel (kv : List (String × String)) (k : String) : List (String × String) :=
  kv.filter (fun p => p.1 != k)

/-- `scheduledJobQueue.removeRepeatableByKey(k)`: `true` exactly when the
key named an active repeat schedule, which is then removed. -/
def removeRepeatableByKey (keys : List String) (k : String) : Bool × List String :=
  (keys.contains k, keys.erase k)

/-- The fallback linear scan of `findRepeatableJobKey`: over `getJobs()`,
keep entries that exist and have data, and take the `repeatJobKey` of the
first whose payload has `flowVersionId` equal to `id`. -/
def repeatableScanByPayload (jobs : List (Option RJob)) (id : String) : Option String :=
  (((jobs.filterMap (fun x => x)).filter (fun f => f.data.isSome)).find?
      (fun f => f.data.bind (fun d => d.flowVersionId) == some id)).bind
    (fun f => f.repeatJobKey)

/-- `findRepeatableJobKey(id)`: the side mapping first; only on a miss, the
fallback scan. -/
def findRepeatableJobKey (st : QueueState) (id : String) : Option String :=
  match kvGet st.kv (repeatingJobKey id) with
  | some jobKey => some jobKey
  | none => repeatableScanByPayload st.jobs id

/-- `redisQueueManager.removeRepeatingJob({ id })`: no key found means the
anomaly is only reported and the call succeeds; a found key is removed at
the broker and the side mapping entry is deleted unconditionally, and only
then a `false` broker result raises `JOB_REMOVAL_FAILURE` with the job
id. -/
def removeRepeatingJob (st : QueueState) (id : String) :
    QueueState × Except ApError Unit :=
  match findRepeatableJobKey st id with
  | none => (st, .ok ())
  | some jobKey =>
    let r := removeRepeatableByKey st.repeatKeys jobKey
    let st' : QueueState :=
      { st with repeatKeys := r.2, kv := kvDel st.kv (repeatingJobKey id) }
    if r.1 then (st', .ok ())
    else (st', .error (.jobRemovalFailure id))

deriving instance DecidableEq for Except

/-- Well-formedness of the queue contents the spec's data model prescribes
(§3: a v1 payload embeds a full flow-version object): every job whose
payload is at version 1 (or has no version) carries a `flowVersion`. -/
def jobsWF (jobs : List (Option RJob)) : Bool :=
  jobs.all (fun oj =>
    match oj with
    | none => true
    | some j =>
      match j.data with
      | none => true
      | some d =>
        if d.schemaVersion = none ∨ d.schemaVersion = some 1 then d.flowVersion.isSome
        else true)

/-- Two flow-repository states that agree on which published-version ids
resolve to a flow. -/
def lookupEquiv (r1 r2 : FlowRepo) : Prop :=
  ∀ v, (findOneByPublishedVersionId r1 v).isSome = (findOneByPublishedVersionId r2 v).isSome

/-! ### Concrete fixtures used by witnesses and counterexamples -/

def fvSample : FlowVersion := { id := "fv1", flowId := "fl1" }

/-- A version-1 payload: the full flow-version object inline. -/
def jobDataV1 : JobData :=
  { schemaVersion := some 1, flowVersion := some fvSample,
    projectId := some "p1", triggerType := some "PIECE_TRIGGER" }

/-- A repeatable v1 job as stored on the scheduled queue. -/
def jobV1 : RJob :=
  { data := some jobDataV1, repeatTz := some "UTC",
    repeatPattern := some "0 * * * *", repeatJobKey := some "repeatKey1" }

def flowSample : Flow := { id := "flowA", publishedVersionId := some "fv1" }

/-- A repository holding the flow whose published version the sample job
references. -/
def repoOne : FlowRepo := { flows := [flowSample] }

/-- An empty repository: every flow lookup fails. -/
def repoEmpty : FlowRepo := { flows := [] }

def lockSample : ApLock := { key := "jobs_lock" }

def jobDataV3 : JobData :=
  { schemaVersion := some 3, flowVersionId := some "fv2",
    executionType := some ExecutionType.RESUME }

def jobDataV4 : JobData := { schemaVersion := some 4, flowVersionId := some "fv9" }

/-- A current-version repeating job known to the broker. -/
def jobRepeating : RJob := { data := some jobDataV4, repeatJobKey := some "repeatKey9" }

/-- Backend state where the side mapping for `fv9` is present. -/
def qstWithMapping : QueueState :=
  { kv := [(repeatingJobKey "fv9", "repeatKey9")], jobs := [some jobRepeating],
    repeatKeys := ["repeatKey9"] }

/-- Backend state where the side mapping was deleted out-of-band but the job
is still in the repeatable set. -/
def qstNoMapping : QueueState :=
  { kv := [], jobs := [some jobRepeating], repeatKeys := ["repeatKey9"] }

def qstEmpty : QueueState := { kv := [], jobs := [], repeatKeys := [] }

/-- Backend state where the mapping points at a key the broker no longer
holds in its repeatable set. -/
def qstBrokerless : QueueState := { qstWithMapping with repeatKeys := [] }

/-- The payload of `jobV1` after the full v1→v4 path. -/
def jobDataV1Migrated : JobData :=
  migrateV3ToV4 { (migrateV1ToV2 jobDataV1 fvSample) with schemaVersion := some 3 }

def jobV1Migrated : RJob := { jobV1 with data := some jobDataV1Migrated }

/-- `repoOne` after the v2→v3 backfill wrote the schedule of `flowA`. -/
def repoOneBackfilled : FlowRepo :=
  updateFlowSchedule repoOne "flowA"
    { type := ScheduleType.CRON_EXPRESSION, timezone := "UTC", cronExpression := "0 * * * *" }

/-- A version-2 payload referencing a published version no flow has. -/
def jobDataV2stuck : JobData := { schemaVersion := some 2, flowVersionId := some "missing" }

def jobV2stuck : RJob :=
  { data := some jobDataV2stuck, repeatTz := some "UTC", repeatPattern := some "0 * * * *" }

/-! ### Helper lemmas about the embedded operations -/

theorem RJob.data_set_eta (job : RJob) (d : Option JobData) (h : job.data = d) :
    ({ job with data := d } : RJob) = job := by
  cases job
  simp_all

theorem updateCron_fst (repo : FlowRepo) (job : RJob) :
    (updateCronExpressionOfRedisToPostgresTable repo job).1 =
      (job.repeatTz.isSome && (job.repeatPattern.isSome &&
        (findOneByPublishedVersionId repo
          (job.data.bind (fun d => d.flowVersionId))).isSome)) := by
  unfold updateCronExpressionOfRedisToPostgresTable
  cases job.repeatTz <;> cases job.repeatPattern <;> simp
  cases findOneByPublishedVersionId repo (job.data.bind (fun d => d.flowVersionId)) <;> simp

theorem updateCron_snd_of_false (repo : FlowRepo) (job : RJob)
    (h : (updateCronExpressionOfRedisToPostgresTable repo job).1 = false) :
    (updateCronExpressionOfRedisToPostgresTable repo job).2 = repo := by
  unfold updateCronExpressionOfRedisToPostgresTable at h ⊢
  cases htz : job.repeatTz <;> cases hpat : job.repeatPattern <;>
    cases hf : findOneByPublishedVersionId repo (job.data.bind (fun d => d.flowVersionId)) <;>
      simp_all

theorem lookupEquiv_refl (r : FlowRepo) : lookupEquiv r r := fun _ => rfl

theorem lookupEquiv_symm {r1 r2 : FlowRepo} (h : lookupEquiv r1 r2) : lookupEquiv r2 r1 :=
  fun v => (h v).symm

theorem lookupEquiv_trans {r1 r2 r3 : FlowRepo} (h1 : lookupEquiv r1 r2)
    (h2 : lookupEquiv r2 r3) : lookupEquiv r1 r3 :=
  fun v => (h1 v).trans (h2 v)

theorem lookupEquiv_updateFlowSchedule (repo : FlowRepo) (fid : String) (sched : Schedule) :
    lookupEquiv (updateFlowSchedule repo fid sched) repo := by
  intro v
  cases v with
  | none => rfl
  | some s =>
    show ((repo.flows.map _).find? _).isSome = (repo.flows.find? _).isSome
    obtain ⟨fl⟩ := repo
    induction fl with
    | nil => rfl
    | cons f fs ih =>
      by_cases hid : (f.id == fid) = true <;>
        cases hp : (f.publishedVersionId == some s) <;>
          simp_all [List.find?_cons]

theorem lookupEquiv_updateCron (repo : FlowRepo) (job : RJob) :
    lookupEquiv (updateCronExpressionOfRedisToPostgresTable repo job).2 repo := by
  unfold updateCronExpressionOfRedisToPostgresTable
  cases job.repeatTz with
  | none => exact lookupEquiv_refl repo
  | some tz =>
    cases job.repeatPattern with
    | none => exact lookupEquiv_refl repo
    | some pat =>
      cases hf : findOneByPublishedVersionId repo (job.data.bind (fun d => d.flowVersionId)) with
      | none => exact lookupEquiv_refl repo
      | some flow => exact lookupEquiv_updateFlowSchedule repo flow.id _

theorem migrateV1ToV2_schemaVersion (d : JobData) (fv : FlowVersion) :
    (migrateV1ToV2 d fv).schemaVersion = some 2 := rfl

theorem migrateV3ToV4_schemaVersion (d : JobData) :
    (migrateV3ToV4 d).schemaVersion = some 4 := rfl

theorem migrateSteps23_not23 (repo : FlowRepo) (job : RJob) (d1 : JobData) (c1 : Nat)
    (h2 : d1.schemaVersion ≠ some 2) (h3 : d1.schemaVersion ≠ some 3) :
    migrateSteps23 repo job d1 c1 = ({ job with data := some d1 }, repo, c1) := by
  unfold migrateSteps23 migrateStep2
  simp [h2, h3]

theorem migrateSteps23_v3 (repo : FlowRepo) (job : RJob) (d1 : JobData) (c1 : Nat)
    (h3 : d1.schemaVersion = some 3) :
    migrateSteps23 repo job d1 c1 =
      ({ job with data := some (migrateV3ToV4 d1) }, repo, c1 + 1) := by
  unfold migrateSteps23 migrateStep2
  simp [h3]

theorem migrateSteps23_v2_fail (repo : FlowRepo) (job : RJob) (d1 : JobData) (c1 : Nat)
    (h2 : d1.schemaVersion = some 2)
    (hu : (updateCronExpressionOfRedisToPostgresTable repo { job with data := some d1 }).1
      = false) :
    migrateSteps23 repo job d1 c1 = ({ job with data := some d1 }, repo, c1) := by
  unfold migrateSteps23 migrateStep2
  simp [h2, hu, updateCron_snd_of_false _ _ hu]

theorem migrateSteps23_v2_ok (repo : FlowRepo) (job : RJob) (d1 : JobData) (c1 : Nat)
    (h2 : d1.schemaVersion = some 2)
    (hu : (updateCronExpressionOfRedisToPostgresTable repo { job with data := some d1 }).1
      = true) :
    migrateSteps23 repo job d1 c1 =
      ({ job with data := some (migrateV3ToV4 { d1 with schemaVersion := some 3 }) },
        (updateCronExpressionOfRedisToPostgresTable repo { job with data := some d1 }).2,
        c1 + 1 + 1) := by
  unfold migrateSteps23 migrateStep2
  simp [h2, hu]

theorem migrateOneJob_data_none (repo : FlowRepo) (job : RJob) (h : job.data = none) :
    migrateOneJob repo job = .ok (job, repo, 0) := by
  unfold migrateOneJob
  simp [h]

theorem migrateOneJob_v1_fault (repo : FlowRepo) (job : RJob) (d0 : JobData)
    (hd : job.data = some d0) (h1 : d0.schemaVersion = none ∨ d0.schemaVersion = some 1)
    (hfv : d0.flowVersion = none) :
    migrateOneJob repo job = .error MigrationFault.typeError := by
  unfold migrateOneJob
  simp [hd, hfv, h1]

theorem migrateOneJob_v1 (repo : FlowRepo) (job : RJob) (d0 : JobData) (fv : FlowVersion)
    (hd : job.data = some d0) (h1 : d0.schemaVersion = none ∨ d0.schemaVersion = some 1)
    (hfv : d0.flowVersion = some fv) :
    migrateOneJob repo job = .ok (migrateSteps23 repo job (migrateV1ToV2 d0 fv) 1) := by
  unfold migrateOneJob
  simp [hd, hfv, h1]

theorem migrateOneJob_nonv1 (repo : FlowRepo) (job : RJob) (d0 : JobData)
    (hd : job.data = some d0) (h1 : ¬(d0.schemaVersion = none ∨ d0.schemaVersion = some 1)) :
    migrateOneJob repo job = .ok (migrateSteps23 repo job d0 0) := by
  unfold migrateOneJob
  simp [hd, h1]

theorem updateCron_fst_congr (repo repo2 : FlowRepo) (job : RJob)
    (heq : lookupEquiv repo repo2) :
    (updateCronExpressionOfRedisToPostgresTable repo job).1 =
      (updateCronExpressionOfRedisToPostgresTable repo2 job).1 := by
  rw [updateCron_fst, updateCron_fst, heq (job.data.bind (fun d => d.flowVersionId))]

/-- A job stuck at version 2 because the backfill fails is left completely
untouched by the loop body. -/
theorem migrateOneJob_stuckAt2 (repo : FlowRepo) (job : RJob) (d1 : JobData)
    (hd : job.data = some d1) (h2 : d1.schemaVersion = some 2)
    (hu : (updateCronExpressionOfRedisToPostgresTable repo
      { job with data := some d1 }).1 = false) :
    migrateOneJob repo job = .ok (job, repo, 0) := by
  have h1 : ¬(d1.schemaVersion = none ∨ d1.schemaVersion = some 1) := by simp [h2]
  rw [migrateOneJob_nonv1 repo job d1 hd h1, migrateSteps23_v2_fail repo job d1 0 h2 hu,
    RJob.data_set_eta job (some d1) hd]

/-- A job whose version triggers none of the three steps is left completely
untouched by the loop body. -/
theorem migrateOneJob_noStep (repo : FlowRepo) (job : RJob) (d : JobData)
    (hd : job.data = some d) (h1 : ¬(d.schemaVersion = none ∨ d.schemaVersion = some 1))
    (h2 : d.schemaVersion ≠ some 2) (h3 : d.schemaVersion ≠ some 3) :
    migrateOneJob repo job = .ok (job, repo, 0) := by
  rw [migrateOneJob_nonv1 repo job d hd h1, migrateSteps23_not23 repo job d 0 h2 h3,
    RJob.data_set_eta job (some d) hd]

/-- Core invariant of the migration loop body: it only rewrites flow
schedules (so which published-version ids resolve to a flow is unchanged),
and its output job is a fixed point of the body under any
lookup-equivalent repository, contributing zero further steps. -/
theorem migrateOneJob_main (repo : FlowRepo) (job j' : RJob) (repo1 : FlowRepo) (c : Nat)
    (h : migrateOneJob repo job = .ok (j', repo1, c)) :
    lookupEquiv repo1 repo ∧
      ∀ repo2, lookupEquiv repo repo2 → migrateOneJob repo2 j' = .ok (j', repo2, 0) := by
  cases hd : job.data with
  | none =>
    rw [migrateOneJob_data_none repo job hd] at h
    simp only [Except.ok.injEq, Prod.mk.injEq] at h
    obtain ⟨rfl, rfl, rfl⟩ := h
    exact ⟨lookupEquiv_refl _, fun repo2 _ => migrateOneJob_data_none repo2 job hd⟩
  | some d0 =>
    by_cases h1 : d0.schemaVersion = none ∨ d0.schemaVersion = some 1
    · cases hfv : d0.flowVersion with
      | none =>
        rw [migrateOneJob_v1_fault repo job d0 hd h1 hfv] at h
        cases h
      | some fv =>
        rw [migrateOneJob_v1 repo job d0 fv hd h1 hfv] at h
        have h2 : (migrateV1ToV2 d0 fv).schemaVersion = some 2 := rfl
        cases hu : (updateCronExpressionOfRedisToPostgresTable repo
            { job with data := some (migrateV1ToV2 d0 fv) }).1 with
        | false =>
          rw [migrateSteps23_v2_fail repo job (migrateV1ToV2 d0 fv) 1 h2 hu] at h
          simp only [Except.ok.injEq, Prod.mk.injEq] at h
          obtain ⟨rfl, rfl, rfl⟩ := h
          refine ⟨lookupEquiv_refl _, fun repo2 heq2 => ?_⟩
          refine migrateOneJob_stuckAt2 repo2 _ (migrateV1ToV2 d0 fv) rfl h2 ?_
          rw [← updateCron_fst_congr repo repo2 _ heq2]
          exact hu
        | true =>
          rw [migrateSteps23_v2_ok repo job (migrateV1ToV2 d0 fv) 1 h2 hu] at h
          simp only [Except.ok.injEq, Prod.mk.injEq] at h
          obtain ⟨rfl, rfl, rfl⟩ := h
          refine ⟨lookupEquiv_updateCron repo _, fun repo2 heq2 => ?_⟩
          exact migrateOneJob_noStep repo2 _ _ rfl
            (by simp [migrateV3ToV4_schemaVersion])
            (by simp [migrateV3ToV4_schemaVersion])
            (by simp [migrateV3ToV4_schemaVersion])
    · rw [migrateOneJob_nonv1 repo job d0 hd h1] at h
      by_cases h2 : d0.schemaVersion = some 2
      · cases hu : (updateCronExpressionOfRedisToPostgresTable repo
            { job with data := some d0 }).1 with
        | false =>
          rw [migrateSteps23_v2_fail repo job d0 0 h2 hu,
            RJob.data_set_eta job (some d0) hd] at h
          simp only [Except.ok.injEq, Prod.mk.injEq] at h
          obtain ⟨rfl, rfl, rfl⟩ := h
          refine ⟨lookupEquiv_refl _, fun repo2 heq2 => ?_⟩
          refine migrateOneJob_stuckAt2 repo2 job d0 hd h2 ?_
          rw [← updateCron_fst_congr repo repo2 _ heq2]
          exact hu
        | true =>
          rw [migrateSteps23_v2_ok repo job d0 0 h2 hu] at h
          simp only [Except.ok.injEq, Prod.mk.injEq] at h
          obtain ⟨rfl, rfl, rfl⟩ := h
          refine ⟨lookupEquiv_updateCron repo _, fun repo2 heq2 => ?_⟩
          exact migrateOneJob_noStep repo2 _ _ rfl
            (by simp [migrateV3ToV4_schemaVersion])
            (by simp [migrateV3ToV4_schemaVersion])
            (by simp [migrateV3ToV4_schemaVersion])
      · by_cases h3 : d0.schemaVersion = some 3
        · rw [migrateSteps23_v3 repo job d0 0 h3] at h
          simp only [Except.ok.injEq, Prod.mk.injEq] at h
          obtain ⟨rfl, rfl, rfl⟩ := h
          refine ⟨lookupEquiv_refl _, fun repo2 heq2 => ?_⟩
          exact migrateOneJob_noStep repo2 _ _ rfl
            (by simp [migrateV3ToV4_schemaVersion])
            (by simp [migrateV3ToV4_schemaVersion])
            (by simp [migrateV3ToV4_schemaVersion])
        · rw [migrateSteps23_not23 repo job d0 0 h2 h3,
            RJob.data_set_eta job (some d0) hd] at h
          simp only [Except.ok.injEq, Prod.mk.injEq] at h
          obtain ⟨rfl, rfl, rfl⟩ := h
          exact ⟨lookupEquiv_refl _,
            fun repo2 _ => migrateOneJob_noStep repo2 job d0 hd h1 h2 h3⟩

theorem processScheduledJob_main (repo : FlowRepo) (oj oj' : Option RJob)
    (repo1 : FlowRepo) (c : Nat)
    (h : processScheduledJob repo oj = .ok (oj', repo1, c)) :
    lookupEquiv repo1 repo ∧
      ∀ repo2, lookupEquiv repo repo2 →
        processScheduledJob repo2 oj' = .ok (oj', repo2, 0) := by
  unfold processScheduledJob at h
  by_cases hg : jobDataSchemaVersionIsNotLatest oj = true
  · rw [if_pos hg] at h
    cases oj with
    | none => simp [jobDataSchemaVersionIsNotLatest] at hg
    | some j =>
      cases hm : migrateOneJob repo j with
      | error e => simp [hm] at h
      | ok r =>
        obtain ⟨j2, repoA, c2⟩ := r
        simp only [hm, Except.ok.injEq, Prod.mk.injEq] at h
        obtain ⟨rfl, rfl, rfl⟩ := h
        obtain ⟨he, hst⟩ := migrateOneJob_main repo j j2 repoA c2 hm
        refine ⟨he, fun repo2 heq2 => ?_⟩
        by_cases hg2 : jobDataSchemaVersionIsNotLatest (some j2) = true
        · simp [processScheduledJob, hg2, hst repo2 heq2]
        · simp [processScheduledJob, hg2]
  · rw [if_neg hg] at h
    simp only [Except.ok.injEq, Prod.mk.injEq] at h
    obtain ⟨rfl, rfl, rfl⟩ := h
    refine ⟨lookupEquiv_refl _, fun repo2 _ => ?_⟩
    simp [processScheduledJob, hg]

theorem migrateJobsLoop_main (jobs : List (Option RJob)) :
    ∀ repo out repo1 c, migrateJobsLoop repo jobs = .ok (out, repo1, c) →
      lookupEquiv repo1 repo ∧
        ∀ repo2, lookupEquiv repo repo2 →
          migrateJobsLoop repo2 out = .ok (out, repo2, 0) := by
  induction jobs with
  | nil =>
    intro repo out repo1 c h
    simp [migrateJobsLoop] at h
    obtain ⟨rfl, rfl, rfl⟩ := h
    exact ⟨lookupEquiv_refl _, fun repo2 _ => by simp [migrateJobsLoop]⟩
  | cons oj rest ih =>
    intro repo out repo1 c h
    unfold migrateJobsLoop at h
    cases hp : processScheduledJob repo oj with
    | error e => simp [hp] at h
    | ok r1 =>
      obtain ⟨oj1, repoA, c1⟩ := r1
      cases hl : migrateJobsLoop repoA rest with
      | error e => simp [hp, hl] at h
      | ok r2 =>
        obtain ⟨out1, repoB, c2⟩ := r2
        simp only [hp, hl, Except.ok.injEq, Prod.mk.injEq] at h
        obtain ⟨rfl, rfl, rfl⟩ := h
        obtain ⟨heA, hstA⟩ := processScheduledJob_main repo oj oj1 repoA c1 hp
        obtain ⟨heB, hstB⟩ := ih repoA out1 repoB c2 hl
        refine ⟨lookupEquiv_trans heB heA, fun repo2 heq2 => ?_⟩
        have heqA : lookupEquiv repoA repo2 := lookupEquiv_trans heA heq2
        simp [migrateJobsLoop, hstA repo2 heq2, hstB repo2 heqA]

/-- A job at version 2 whose backfill precondition fails (missing repeat
option or no flow with that published version) is left untouched. -/
theorem migrateOneJob_v2fail (repo : FlowRepo) (job : RJob) (d : JobData)
    (hd : job.data = some d) (h2 : d.schemaVersion = some 2)
    (hfail : job.repeatTz = none ∨ job.repeatPattern = none ∨
      findOneByPublishedVersionId repo d.flowVersionId = none) :
    migrateOneJob repo job = .ok (job, repo, 0) := by
  refine migrateOneJob_stuckAt2 repo job d hd h2 ?_
  rw [updateCron_fst]
  rcases hfail with h | h | h <;> simp [h]

/-- The full v1→v4 path: repeat options present and the flow found.  The
output payload is the v3→v4 rewrite of the advanced v1→v2 rewrite, and the
step counter contributes three. -/
theorem migrateOneJob_v1_full (repo : FlowRepo) (job : RJob) (d0 : JobData)
    (fv : FlowVersion) (tz pat : String) (flow : Flow)
    (hd : job.data = some d0) (h1 : d0.schemaVersion = none ∨ d0.schemaVersion = some 1)
    (hfv : d0.flowVersion = some fv)
    (htz : job.repeatTz = some tz) (hpat : job.repeatPattern = some pat)
    (hflow : findOneByPublishedVersionId repo (some fv.id) = some flow) :
    ∃ repo1, migrateOneJob repo job =
      .ok ({ job with
        data := some (migrateV3ToV4 { (migrateV1ToV2 d0 fv) with schemaVersion := some 3 }) },
        repo1, 3) := by
  have h2 : (migrateV1ToV2 d0 fv).schemaVersion = some 2 := rfl
  have hu : (updateCronExpressionOfRedisToPostgresTable repo
      { job with data := some (migrateV1ToV2 d0 fv) }).1 = true := by
    rw [updateCron_fst]
    simp [htz, hpat, migrateV1ToV2, hflow]
  rw [migrateOneJob_v1 repo job d0 fv hd h1 hfv,
    migrateSteps23_v2_ok repo job (migrateV1ToV2 d0 fv) 1 h2 hu]
  exact ⟨_, rfl⟩

/-- Under the data-model well-formedness of §3 the loop body never faults. -/
theorem migrateOneJob_isOk (repo : FlowRepo) (j : RJob)
    (hwf : ∀ d, j.data = some d →
      (d.schemaVersion = none ∨ d.schemaVersion = some 1) → d.flowVersion.isSome = true) :
    ∃ r, migrateOneJob repo j = .ok r := by
  cases hd : j.data with
  | none => exact ⟨_, migrateOneJob_data_none repo j hd⟩
  | some d0 =>
    by_cases h1 : d0.schemaVersion = none ∨ d0.schemaVersion = some 1
    · cases hfv : d0.flowVersion with
      | none => have := hwf d0 hd h1; simp [hfv] at this
      | some fv => exact ⟨_, migrateOneJob_v1 repo j d0 fv hd h1 hfv⟩
    · exact ⟨_, migrateOneJob_nonv1 repo j d0 hd h1⟩

theorem processScheduledJob_isOk (repo : FlowRepo) (oj : Option RJob)
    (hwf : ∀ j : RJob, oj = some j → ∀ d, j.data = some d →
      (d.schemaVersion = none ∨ d.schemaVersion = some 1) → d.flowVersion.isSome = true) :
    ∃ r, processScheduledJob repo oj = .ok r := by
  cases oj with
  | none =>
    exact ⟨(none, repo, 0), by simp [processScheduledJob, jobDataSchemaVersionIsNotLatest]⟩
  | some j =>
    by_cases hg : jobDataSchemaVersionIsNotLatest (some j) = true
    · obtain ⟨⟨j2, r2, c2⟩, hm⟩ := migrateOneJob_isOk repo j (hwf j rfl)
      exact ⟨(some j2, r2, c2), by simp [processScheduledJob, hg, hm]⟩
    · exact ⟨(some j, repo, 0), by simp [processScheduledJob, hg]⟩

/-- Under the data-model well-formedness of §3 the whole pass never
aborts. -/
theorem migrateJobsLoop_isOk (jobs : List (Option RJob)) :
    ∀ repo, jobsWF jobs = true → ∃ r, migrateJobsLoop repo jobs = .ok r := by
  induction jobs with
  | nil => exact fun repo _ => ⟨_, rfl⟩
  | cons oj rest ih =>
    intro repo hwf
    rw [jobsWF, List.all_cons, Bool.and_eq_true] at hwf
    obtain ⟨hw1, hwrest⟩ := hwf
    have hwf1 : ∀ j : RJob, oj = some j → ∀ d, j.data = some d →
        (d.schemaVersion = none ∨ d.schemaVersion = some 1) →
        d.flowVersion.isSome = true := by
      intro j hoj d hd h1
      rw [hoj] at hw1
      simpa [hd, h1] using hw1
    obtain ⟨⟨oj1, r1, c1⟩, hp⟩ := processScheduledJob_isOk repo oj hwf1
    obtain ⟨⟨out, r2, c2⟩, hl⟩ := ih r1 hwrest
    exact ⟨(oj1 :: out, r2, c1 + c2), by simp [migrateJobsLoop, hp, hl]⟩

/-- Processing one entry commutes with the rest of the loop: its outcome is
prepended and its step count added, whatever happens later. -/
theorem migrateJobsLoop_cons_ok (repo : FlowRepo) (oj : Option RJob)
    (rest : List (Option RJob)) (oj1 : Option RJob) (repo1 : FlowRepo) (c1 : Nat)
    (hp : processScheduledJob repo oj = .ok (oj1, repo1, c1)) :
    migrateJobsLoop repo (oj :: rest) =
      (migrateJobsLoop repo1 rest).map (fun r => (oj1 :: r.1, r.2.1, c1 + r.2.2)) := by
  cases hrest : migrateJobsLoop repo1 rest with
  | error e => simp [migrateJobsLoop, hp, hrest, Except.map]
  | ok r =>
    obtain ⟨out, r2, c2⟩ := r
    simp [migrateJobsLoop, hp, hrest, Except.map]

theorem kvGet_kvDel (kv : List (String × String)) (k : String) :
    kvGet (kvDel kv k) k = none := by
  unfold kvGet kvDel
  rw [List.find?_eq_none.mpr]
  · rfl
  · intro p hp
    have hne := (List.mem_filter.mp hp).2
    simp only [bne_iff_ne, ne_eq] at hne
    simpa using hne

theorem repeatableScanByPayload_mem (jobs : List (Option RJob)) (id k : String)
    (h : repeatableScanByPayload jobs id = some k) :
    ∃ j : RJob, some j ∈ jobs ∧ j.repeatJobKey = some k ∧
      ∃ d, j.data = some d ∧ d.flowVersionId = some id := by
  unfold repeatableScanByPayload at h
  cases hf : ((jobs.filterMap (fun x => x)).filter (fun f => f.data.isSome)).find?
      (fun f => f.data.bind (fun d => d.flowVersionId) == some id) with
  | none => rw [hf] at h; cases h
  | some j =>
    rw [hf] at h
    have hmem := List.mem_of_find?_eq_some hf
    have hpred := List.find?_some hf
    have hmem2 : j ∈ jobs.filterMap (fun x => x) := (List.mem_filter.mp hmem).1
    refine ⟨j, ?_, by simpa using h, ?_⟩
    · rcases List.mem_filterMap.mp hmem2 with ⟨oj, hoj, hid⟩
      rwa [show oj = some j from hid] at hoj
    · cases hd : j.data with
      | none =>
        have hdata := (List.mem_filter.mp hmem).2
        simp [hd] at hdata
      | some d =>
        refine ⟨d, rfl, ?_⟩
        rw [hd] at hpred
        simpa using hpred

theorem repeatableScanByPayload_none (jobs : List (Option RJob)) (id : String)
    (h : ∀ j : RJob, some j ∈ jobs → ∀ d, j.data = some d → d.flowVersionId ≠ some id) :
    repeatableScanByPayload jobs id = none := by
  unfold repeatableScanByPayload
  rw [List.find?_eq_none.mpr]
  · rfl
  · intro f hf
    have hm := List.mem_filter.mp hf
    rcases List.mem_filterMap.mp hm.1 with ⟨oj, hoj, hid⟩
    rw [show oj = some f from hid] at hoj
    cases hd : f.data with
    | none => simp [hd]
    | some d => simp [hd, h f hoj d hd]

theorem findRepeatableJobKey_hit (st : QueueState) (id k : String)
    (h : kvGet st.kv (repeatingJobKey id) = some k) :
    findRepeatableJobKey st id = some k := by
  unfold findRepeatableJobKey
  rw [h]

theorem findRepeatableJobKey_miss (st : QueueState) (id : String)
    (h : kvGet st.kv (repeatingJobKey id) = none) :
    findRepeatableJobKey st id = repeatableScanByPayload st.jobs id := by
  unfold findRepeatableJobKey
  rw [h]

theorem removeRepeatingJob_notFound (st : QueueState) (id : String)
    (h : findRepeatableJobKey st id = none) :
    removeRepeatingJob st id = (st, .ok ()) := by
  unfold removeRepeatingJob
  rw [h]

theorem removeRepeatingJob_found_fail (st : QueueState) (id k : String)
    (h : findRepeatableJobKey st id = some k)
    (hc : st.repeatKeys.contains k = false) :
    removeRepeatingJob st id =
      ({ st with
          repeatKeys := st.repeatKeys.erase k,
          kv := kvDel st.kv (repeatingJobKey id) },
        .error (.jobRemovalFailure id)) := by
  unfold removeRepeatingJob removeRepeatableByKey
  rw [h]
  simp [hc]
  simpa using hc

theorem removeRepeatingJob_found_ok (st : QueueState) (id k : String)
    (h : findRepeatableJobKey st id = some k)
    (hc : st.repeatKeys.contains k = true) :
    removeRepeatingJob st id =
      ({ st with
          repeatKeys := st.repeatKeys.erase k,
          kv := kvDel st.kv (repeatingJobKey id) },
        .ok ()) := by
  unfold removeRepeatingJob removeRepeatableByKey
  rw [h]
  simp [hc]
  simpa using hc

theorem removeRepeatingJob_kv_deleted (st : QueueState) (id k : String)
    (h : findRepeatableJobKey st id = some k) :
    ((removeRepeatingJob st id).1).kv = kvDel st.kv (repeatingJobKey id) := by
  unfold removeRepeatingJob removeRepeatableByKey
  rw [h]
  by_cases hc : k ∈ st.repeatKeys <;> simp [hc]

/-! ### Claim theorems -/

/-- C1 counterexample: a scheduled job at schema version 1 does not always
end the pass at version 4 — with no flow matching its published version id,
the v2→v3 backfill fails and the pass leaves it at version 2. -/
theorem C1_counterexample :
    (migrateScheduledJobs (Except.ok lockSample) repoEmpty [some jobV1]).map
        (fun r => r.1.map (fun oj => oj.bind (fun j => j.data.bind (fun d => d.schemaVersion))))
      = Except.ok [some 2] ∧ (2 : Nat) ≠ 4 := by
  decide

/-- C1 (amended): a scheduled job whose payload is at schema version 1 (or
has no schemaVersion), whose broker repeat options are both present and
whose flow-version id resolves to a flow, ends one migration pass at schema
version 4 with `jobType = EXECUTE_TRIGGER` — the v1→v2 step sets
`executionType` to `BEGIN` unconditionally, so the v4 mapping can only
yield `EXECUTE_TRIGGER` for such jobs. -/
theorem C1_v1_migration_amended (repo : FlowRepo) (job : RJob) (d0 : JobData)
    (fv : FlowVersion) (tz pat : String) (flow : Flow)
    (hd : job.data = some d0) (h1 : d0.schemaVersion = none ∨ d0.schemaVersion = some 1)
    (hfv : d0.flowVersion = some fv)
    (htz : job.repeatTz = some tz) (hpat : job.repeatPattern = some pat)
    (hflow : findOneByPublishedVersionId repo (some fv.id) = some flow) :
    ∃ j' repo1, processScheduledJob repo (some job) = .ok (some j', repo1, 3) ∧
      ∃ d', j'.data = some d' ∧ d'.schemaVersion = some 4 ∧
        d'.jobType = some RepeatableJobType.EXECUTE_TRIGGER ∧ d'.executionType = none := by
  have hg : jobDataSchemaVersionIsNotLatest (some job) = true := by
    rcases h1 with h | h <;>
      simp [jobDataSchemaVersionIsNotLatest, hd, h, LATEST_JOB_DATA_SCHEMA_VERSION]
  obtain ⟨repo1, hm⟩ :=
    migrateOneJob_v1_full repo job d0 fv tz pat flow hd h1 hfv htz hpat hflow
  refine ⟨{ job with
      data := some (migrateV3ToV4 { (migrateV1ToV2 d0 fv) with schemaVersion := some 3 }) },
    repo1, ?_, ?_⟩
  · simp [processScheduledJob, hg, hm]
  · exact ⟨_, rfl, rfl, rfl, rfl⟩

/-- C1 witness: the sample v1 job against the repository holding its flow. -/
theorem C1_witness :
    ∃ j' repo1, processScheduledJob repoOne (some jobV1) = .ok (some j', repo1, 3) ∧
      ∃ d', j'.data = some d' ∧ d'.schemaVersion = some 4 ∧
        d'.jobType = some RepeatableJobType.EXECUTE_TRIGGER ∧ d'.executionType = none :=
  C1_v1_migration_amended repoOne jobV1 jobDataV1 fvSample "UTC" "0 * * * *" flowSample
    rfl (Or.inr rfl) rfl rfl rfl rfl

/-- C2: a failure of the v2→v3 backfill (missing repeat option or no flow
with the referenced published version) leaves that job at its current
version and contributes nothing; the loop processes the remaining jobs
unchanged; and under the §3 data model the pass never aborts. -/
theorem C2_migration_failure_contained :
    (∀ repo job d, job.data = some d → d.schemaVersion = some 2 →
      (job.repeatTz = none ∨ job.repeatPattern = none ∨
        findOneByPublishedVersionId repo d.flowVersionId = none) →
      migrateOneJob repo job = .ok (job, repo, 0)) ∧
    (∀ repo job d rest, job.data = some d → d.schemaVersion = some 2 →
      (job.repeatTz = none ∨ job.repeatPattern = none ∨
        findOneByPublishedVersionId repo d.flowVersionId = none) →
      migrateJobsLoop repo (some job :: rest) =
        (migrateJobsLoop repo rest).map (fun r => (some job :: r.1, r.2.1, r.2.2))) ∧
    (∀ jobs repo, jobsWF jobs = true → ∃ r, migrateJobsLoop repo jobs = .ok r) := by
  refine ⟨migrateOneJob_v2fail, ?_, fun jobs repo h => migrateJobsLoop_isOk jobs repo h⟩
  intro repo job d rest hd h2 hfail
  have hg : jobDataSchemaVersionIsNotLatest (some job) = true := by
    simp [jobDataSchemaVersionIsNotLatest, hd, h2, LATEST_JOB_DATA_SCHEMA_VERSION]
  have hp : processScheduledJob repo (some job) = .ok (some job, repo, 0) := by
    simp [processScheduledJob, hg, migrateOneJob_v2fail repo job d hd h2 hfail]
  rw [migrateJobsLoop_cons_ok repo (some job) rest (some job) repo 0 hp]
  simp

/-- C2 witness: a v2 job whose flow is absent is skipped untouched. -/
theorem C2_witness :
    migrateOneJob repoEmpty jobV2stuck = .ok (jobV2stuck, repoEmpty, 0) :=
  C2_migration_failure_contained.1 repoEmpty jobV2stuck jobDataV2stuck rfl rfl
    (Or.inr (Or.inr rfl))

/-- C3 counterexample: when lock acquisition fails, `init()` does not
complete successfully — the rejection happens before the `try` block and
propagates out of `migrateScheduledJobs()` into `init()`. -/
theorem C3_counterexample :
    (redisQueueManagerInit (Except.error LockError.acquisitionFailed) repoEmpty []).isOk
      = false := rfl

/-- C3 (amended): if acquisition of the migration lock fails during
`init()`, the migration pass is skipped (no job is touched), but the
failure propagates: `init()` returns the lock error instead of completing
successfully. -/
theorem C3_lock_failure_amended :
    ∀ (e : LockError) (repo : FlowRepo) (jobs : List (Option RJob)),
      redisQueueManagerInit (Except.error e) repo jobs =
        Except.error (InitError.lockFailed e) :=
  fun _ _ _ => rfl

/-- C4: `removeRepeatingJob` returns success when no repeat-job key can be
found for the id; when a key is found but the broker reports no active
repeat schedule for it, it fails with `JOB_REMOVAL_FAILURE` carrying the
job id; and that error code identifies removal failures uniquely among all
error kinds. -/
theorem C4_removal_error_design :
    (∀ st id, findRepeatableJobKey st id = none →
      removeRepeatingJob st id = (st, .ok ())) ∧
    (∀ st id k, findRepeatableJobKey st id = some k →
      st.repeatKeys.contains k = false →
      (removeRepeatingJob st id).2 = .error (ApError.jobRemovalFailure id)) ∧
    (∀ id, (ApError.jobRemovalFailure id).code = ErrorCode.JOB_REMOVAL_FAILURE) ∧
    (∀ e : ApError, e.code = ErrorCode.JOB_REMOVAL_FAILURE →
      ∃ id, e = ApError.jobRemovalFailure id) := by
  refine ⟨removeRepeatingJob_notFound, ?_, fun id => rfl, ?_⟩
  · intro st id k h hc
    rw [removeRepeatingJob_found_fail st id k h hc]
  · intro e he
    cases e with
    | jobRemovalFailure jid => exact ⟨jid, rfl⟩
    | authorization => simp [ApError.code] at he
    | quotaExceeded => simp [ApError.code] at he

/-- C4 witness: an id with no key anywhere succeeds; a key the broker does
not hold fails with the removal-failure error. -/
theorem C4_witness :
    removeRepeatingJob qstEmpty "fv9" = (qstEmpty, .ok ()) ∧
    (removeRepeatingJob qstBrokerless "fv9").2 =
      .error (ApError.jobRemovalFailure "fv9") :=
  ⟨C4_removal_error_design.1 qstEmpty "fv9" rfl,
    C4_removal_error_design.2.1 qstBrokerless "fv9" "repeatKey9" rfl rfl⟩

/-- C5: the v3→v4 step always sets the version to 4, clears
`executionType`, and maps `BEGIN` to `EXECUTE_TRIGGER` and `RESUME` to
`DELAYED_FLOW`; and the loop body applies exactly this step, once, to any
job entering at version 3. -/
theorem C5_v3_to_v4_step :
    (∀ d : JobData, (migrateV3ToV4 d).schemaVersion = some 4 ∧
      (migrateV3ToV4 d).executionType = none ∧
      (d.executionType = some ExecutionType.BEGIN →
        (migrateV3ToV4 d).jobType = some RepeatableJobType.EXECUTE_TRIGGER) ∧
      (d.executionType = some ExecutionType.RESUME →
        (migrateV3ToV4 d).jobType = some RepeatableJobType.DELAYED_FLOW)) ∧
    (∀ repo job d, job.data = some d → d.schemaVersion = some 3 →
      migrateOneJob repo job = .ok ({ job with data := some (migrateV3ToV4 d) }, repo, 1)) := by
  constructor
  · intro d
    refine ⟨rfl, rfl, fun hb => ?_, fun hr => ?_⟩
    · simp [migrateV3ToV4, hb]
    · simp [migrateV3ToV4, hr]
  · intro repo job d hd h3
    have h1 : ¬(d.schemaVersion = none ∨ d.schemaVersion = some 1) := by simp [h3]
    rw [migrateOneJob_nonv1 repo job d hd h1, migrateSteps23_v3 repo job d 0 h3]

/-- C5 witness: a v3 payload carrying `RESUME` maps to `DELAYED_FLOW` and
advances to version 4 through the loop body. -/
theorem C5_witness :
    (migrateV3ToV4 jobDataV3).jobType = some RepeatableJobType.DELAYED_FLOW ∧
    migrateOneJob repoEmpty { data := some jobDataV3 } =
      .ok ({ data := some (migrateV3ToV4 jobDataV3) }, repoEmpty, 1) :=
  ⟨(C5_v3_to_v4_step.1 jobDataV3).2.2.2 rfl,
    C5_v3_to_v4_step.2 repoEmpty { data := some jobDataV3 } jobDataV3 rfl rfl⟩

/-- C6: `findRepeatableJobKey` returns the side-mapping value when present;
only on a miss does it run the payload scan, whose hit is the
`repeatJobKey` of a stored job with matching `flowVersionId` and whose
result is `none` when no job matches; and `removeRepeatingJob` succeeds
whenever the key it finds (also via the fallback) is in the broker's
repeatable set. -/
theorem C6_find_key_two_tier :
    (∀ st id k, kvGet st.kv (repeatingJobKey id) = some k →
      findRepeatableJobKey st id = some k) ∧
    (∀ st id, kvGet st.kv (repeatingJobKey id) = none →
      findRepeatableJobKey st id = repeatableScanByPayload st.jobs id) ∧
    (∀ st id k, kvGet st.kv (repeatingJobKey id) = none →
      findRepeatableJobKey st id = some k →
      ∃ j : RJob, some j ∈ st.jobs ∧ j.repeatJobKey = some k ∧
        ∃ d, j.data = some d ∧ d.flowVersionId = some id) ∧
    (∀ st id, kvGet st.kv (repeatingJobKey id) = none →
      (∀ j : RJob, some j ∈ st.jobs → ∀ d, j.data = some d → d.flowVersionId ≠ some id) →
      findRepeatableJobKey st id = none) ∧
    (∀ st id k, findRepeatableJobKey st id = some k →
      st.repeatKeys.contains k = true →
      (removeRepeatingJob st id).2 = .ok ()) := by
  refine ⟨findRepeatableJobKey_hit, findRepeatableJobKey_miss, ?_, ?_, ?_⟩
  · intro st id k hmiss hfind
    rw [findRepeatableJobKey_miss st id hmiss] at hfind
    exact repeatableScanByPayload_mem st.jobs id k hfind
  · intro st id hmiss hnone
    rw [findRepeatableJobKey_miss st id hmiss]
    exact repeatableScanByPayload_none st.jobs id hnone
  · intro st id k hfind hc
    rw [removeRepeatingJob_found_ok st id k hfind hc]

/-- C6 witness: with the side mapping deleted out-of-band but the job still
in the repeatable set, the lookup falls back to the scan and removal still
succeeds. -/
theorem C6_witness :
    findRepeatableJobKey qstNoMapping "fv9" =
      repeatableScanByPayload qstNoMapping.jobs "fv9" ∧
    (removeRepeatingJob qstNoMapping "fv9").2 = .ok () :=
  ⟨C6_find_key_two_tier.2.1 qstNoMapping "fv9" rfl,
    C6_find_key_two_tier.2.2.2.2 qstNoMapping "fv9" "repeatKey9" rfl rfl⟩

/-- C7: a successful `init()` run leaves every scheduled job a fixed point
of the migration: running `init()` again over the resulting queue and
repository performs the pass again but migrates nothing — the reported
count is zero. -/
theorem C7_second_pass_zero (lock1 lock2 : ApLock) (repo : FlowRepo)
    (jobs out : List (Option RJob)) (repo1 : FlowRepo) (c : Nat)
    (h : redisQueueManagerInit (Except.ok lock1) repo jobs = .ok (out, repo1, c)) :
    redisQueueManagerInit (Except.ok lock2) repo1 out = .ok (out, repo1, 0) := by
  have hloop : migrateJobsLoop repo jobs = .ok (out, repo1, c) := by
    unfold redisQueueManagerInit migrateScheduledJobs at h
    cases hm : migrateJobsLoop repo jobs with
    | error e => simp [hm] at h
    | ok r =>
      obtain ⟨o, r1, c1⟩ := r
      simp only [hm, Except.ok.injEq, Prod.mk.injEq] at h
      obtain ⟨rfl, rfl, rfl⟩ := h
      rfl
  obtain ⟨he, hst⟩ := migrateJobsLoop_main jobs repo out repo1 c hloop
  have h2 := hst repo1 (lookupEquiv_symm he)
  simp [redisQueueManagerInit, migrateScheduledJobs, h2]

/-- C7 witness: the migrated sample queue and backfilled repository pass
through a second `init()` with a zero count. -/
theorem C7_witness :
    redisQueueManagerInit (Except.ok lockSample) repoOneBackfilled [some jobV1Migrated]
      = .ok ([some jobV1Migrated], repoOneBackfilled, 0) :=
  C7_second_pass_zero lockSample lockSample repoOne [some jobV1] [some jobV1Migrated]
    repoOneBackfilled 3 (by decide)

/-- C8 counterexample: one v1 job whose whole path succeeds is a single
migrated job on a single-job queue, yet the pass reports a count of 3 —
the counter counts migration steps, not migrated jobs. -/
theorem C8_counterexample :
    (migrateScheduledJobs (Except.ok lockSample) repoOne [some jobV1]).map
        (fun r => (r.1.length, r.2.2)) = Except.ok (1, 3) ∧ ¬ (3 : Nat) ≤ 1 := by
  decide

/-- C8 (amended): the count reported at the end of a pass is the number of
successful migration steps: the loop adds the contribution of each job, and a
job contributes one count per step it advances through — three for a full
v1→v4 path, one for a v3 entry. -/
theorem C8_step_counting_amended :
    (∀ repo job d0 fv tz pat flow, job.data = some d0 →
      (d0.schemaVersion = none ∨ d0.schemaVersion = some 1) →
      d0.flowVersion = some fv → job.repeatTz = some tz → job.repeatPattern = some pat →
      findOneByPublishedVersionId repo (some fv.id) = some flow →
      ∃ j' repo1, migrateOneJob repo job = .ok (j', repo1, 3)) ∧
    (∀ repo job d, job.data = some d → d.schemaVersion = some 3 →
      ∃ j', migrateOneJob repo job = .ok (j', repo, 1)) ∧
    (∀ repo oj rest oj1 repo1 c1, processScheduledJob repo oj = .ok (oj1, repo1, c1) →
      migrateJobsLoop repo (oj :: rest) =
        (migrateJobsLoop repo1 rest).map (fun r => (oj1 :: r.1, r.2.1, c1 + r.2.2))) := by
  refine ⟨?_, ?_, fun repo oj rest oj1 repo1 c1 hp =>
    migrateJobsLoop_cons_ok repo oj rest oj1 repo1 c1 hp⟩
  · intro repo job d0 fv tz pat flow hd h1 hfv htz hpat hflow
    obtain ⟨repo1, hm⟩ :=
      migrateOneJob_v1_full repo job d0 fv tz pat flow hd h1 hfv htz hpat hflow
    exact ⟨_, repo1, hm⟩
  · intro repo job d hd h3
    have h1 : ¬(d.schemaVersion = none ∨ d.schemaVersion = some 1) := by simp [h3]
    exact ⟨_, by rw [migrateOneJob_nonv1 repo job d hd h1, migrateSteps23_v3 repo job d 0 h3]⟩

/-- C8 witness: the sample v1 job contributes three steps in one pass. -/
theorem C8_witness :
    ∃ j' repo1, migrateOneJob repoOne jobV1 = .ok (j', repo1, 3) :=
  C8_step_counting_amended.1 repoOne jobV1 jobDataV1 fvSample "UTC" "0 * * * *" flowSample
    rfl (Or.inr rfl) rfl rfl rfl rfl

/-- C9: whenever `removeRepeatingJob` finds a repeat-job key, the side
mapping entry is deleted unconditionally — also on the failing branch that
raises `JOB_REMOVAL_FAILURE` — so a retried call misses the mapping and
takes the fallback-scan path. -/
theorem C9_mapping_deleted_unconditionally :
    ∀ st id k, findRepeatableJobKey st id = some k →
      kvGet ((removeRepeatingJob st id).1).kv (repeatingJobKey id) = none ∧
      findRepeatableJobKey ((removeRepeatingJob st id).1) id =
        repeatableScanByPayload ((removeRepeatingJob st id).1).jobs id ∧
      (st.repeatKeys.contains k = false →
        (removeRepeatingJob st id).2 = .error (ApError.jobRemovalFailure id)) := by
  intro st id k h
  have hkv : ((removeRepeatingJob st id).1).kv = kvDel st.kv (repeatingJobKey id) :=
    removeRepeatingJob_kv_deleted st id k h
  have hnone : kvGet ((removeRepeatingJob st id).1).kv (repeatingJobKey id) = none := by
    rw [hkv]
    exact kvGet_kvDel _ _
  refine ⟨hnone, findRepeatableJobKey_miss _ id hnone, fun hc => ?_⟩
  rw [removeRepeatingJob_found_fail st id k h hc]

/-- C9 witness: the broker rejects the removal, the error is raised, and
the mapping entry is nevertheless gone. -/
theorem C9_witness :
    kvGet ((removeRepeatingJob qstBrokerless "fv9").1).kv (repeatingJobKey "fv9") = none ∧
    (removeRepeatingJob qstBrokerless "fv9").2 =
      .error (ApError.jobRemovalFailure "fv9") :=
  ⟨(C9_mapping_deleted_unconditionally qstBrokerless "fv9" "repeatKey9" rfl).1,
    (C9_mapping_deleted_unconditionally qstBrokerless "fv9" "repeatKey9" rfl).2.2 rfl⟩

/-- C10: the v1→v2 step writes `executionType = BEGIN` and
`environment = PRODUCTION` into every rewritten payload regardless of its
previous contents, so a job entering the pass at version 1 (or without a
version) that reaches version 4 always carries
`jobType = EXECUTE_TRIGGER`, never `DELAYED_FLOW`. -/
theorem C10_v1_forces_execute_trigger :
    (∀ d fv, (migrateV1ToV2 d fv).executionType = some ExecutionType.BEGIN ∧
      (migrateV1ToV2 d fv).environment = some RunEnvironment.PRODUCTION ∧
      (migrateV1ToV2 d fv).schemaVersion = some 2) ∧
    (∀ repo job d j' repo1 c, job.data = some d →
      (d.schemaVersion = none ∨ d.schemaVersion = some 1) →
      migrateOneJob repo job = .ok (j', repo1, c) →
      ∀ d', j'.data = some d' → d'.schemaVersion = some 4 →
      d'.jobType = some RepeatableJobType.EXECUTE_TRIGGER) := by
  refine ⟨fun d fv => ⟨rfl, rfl, rfl⟩, ?_⟩
  intro repo job d j' repo1 c hd h1 hm d' hd' hv4
  cases hfv : d.flowVersion with
  | none =>
    rw [migrateOneJob_v1_fault repo job d hd h1 hfv] at hm
    cases hm
  | some fv =>
    rw [migrateOneJob_v1 repo job d fv hd h1 hfv] at hm
    cases hu : (updateCronExpressionOfRedisToPostgresTable repo
        { job with data := some (migrateV1ToV2 d fv) }).1 with
    | false =>
      rw [migrateSteps23_v2_fail repo job (migrateV1ToV2 d fv) 1 rfl hu] at hm
      simp only [Except.ok.injEq, Prod.mk.injEq] at hm
      obtain ⟨rfl, rfl, rfl⟩ := hm
      simp only [Option.some.injEq] at hd'
      rw [← hd'] at hv4
      simp [migrateV1ToV2] at hv4
    | true =>
      rw [migrateSteps23_v2_ok repo job (migrateV1ToV2 d fv) 1 rfl hu] at hm
      simp only [Except.ok.injEq, Prod.mk.injEq] at hm
      obtain ⟨rfl, rfl, rfl⟩ := hm
      simp at hd'
      rw [← hd']
      rfl


/-- C10 witness: the sample v1 job migrated through the full path carries
EXECUTE_TRIGGER. -/
theorem C10_witness :
    jobDataV1Migrated.jobType = some RepeatableJobType.EXECUTE_TRIGGER :=
  C10_v1_forces_execute_trigger.2 repoOne jobV1 jobDataV1 jobV1Migrated repoOneBackfilled 3
    rfl (Or.inr rfl) (by decide) jobDataV1Migrated rfl rfl

end ActivepiecesQueue
